import Mathlib

/-!
Shallow embedding of the secure-api authentication service
(Express routes `src/routes/auth.js`, the Prisma variant of
`src/routes/index.js`, the `requireAuth` middleware, the Joi validation
middleware, the csurf gate wired in `app.js`, and the error handler),
together with theorems settling the specification claims.
-/

namespace SecureApi

/-- A JavaScript runtime value, as far as the session fields and the
`requireAuth` middleware can observe one: `undefined`, `null`, a number,
a string, or a boolean. -/
inductive JSValue where
  | undefined
  | null
  | num (n : Int)
  | str (s : String)
  | boolean (b : Bool)
deriving DecidableEq, Repr

/-- JavaScript truthiness for the values we model: `undefined`, `null`,
`0`, `""` and `false` are falsy, everything else is truthy. -/
def JSValue.truthy : JSValue → Bool
  | .undefined => false
  | .null => false
  | .num n => n != 0
  | .str s => s != ""
  | .boolean b => b

/-- `typeof v === 'number' || typeof v === 'string'`. -/
def JSValue.isNumOrStr : JSValue → Bool
  | .num _ => true
  | .str _ => true
  | _ => false

/-- Serialization of a JSValue into the string that appears for it in a
JSON response body (only used for values the handlers actually emit). -/
def JSValue.render : JSValue → String
  | .undefined => "undefined"
  | .null => "null"
  | .num n => toString n
  | .str s => s
  | .boolean b => toString b

/-- A stored user of the in-memory store in `src/routes/auth.js`:
`{ id, username, passwordHash }`. -/
structure User where
  id : Nat
  username : String
  passwordHash : String
deriving DecidableEq, Repr

/-- A login-attempt record of `src/routes/auth.js`:
`{ attempts, lastAttempt }` (timestamp in milliseconds). -/
structure AttemptRecord where
  attempts : Nat
  lastAttempt : Nat
deriving DecidableEq, Repr

/-- Server-side session data: `userId` and `username` as mutated by the
handlers, plus the csurf secret held in the session
(`csurf({ cookie: false })`). -/
structure SessionData where
  userId : JSValue
  username : JSValue
  csrfSecret : String
deriving DecidableEq, Repr

/-- A fresh anonymous session with the given csurf secret. -/
def freshSession (secret : String) : SessionData :=
  { userId := .undefined, username := .undefined, csrfSecret := secret }

/-- `Map.set`: replace the value under an existing key, else append. -/
def alSet {α : Type} (k : String) (v : α) : List (String × α) → List (String × α)
  | [] => [(k, v)]
  | (k', v') :: rest =>
      if k' = k then (k, v) :: rest else (k', v') :: alSet k v rest

/-- `Map.delete`. -/
def alErase {α : Type} (k : String) (l : List (String × α)) : List (String × α) :=
  l.filter (fun p => p.1 ≠ k)

/-- `Map.get`. -/
def alGet {α : Type} (k : String) : List (String × α) → Option α
  | [] => none
  | (k', v) :: rest => if k' = k then some v else alGet k rest

/-- `MAX_LOGIN_ATTEMPTS` in `src/routes/auth.js`. -/
def MAX_LOGIN_ATTEMPTS : Nat := 5

/-- `LOCKOUT_TIME` in `src/routes/auth.js`: 15 minutes in milliseconds. -/
def LOCKOUT_TIME : Nat := 15 * 60 * 1000

/-- `checkLoginAttempts(ip)` from `src/routes/auth.js`, with the current
time and the attempt map passed explicitly.  Returns the boolean result
together with the (possibly mutated) map: when the lockout window has
elapsed for a locked-out record the record is deleted. -/
def checkLoginAttempts (now : Nat) (ip : String)
    (m : List (String × AttemptRecord)) :
    Bool × List (String × AttemptRecord) :=
  match alGet ip m with
  | none => (true, m)
  | some a =>
      if a.attempts ≥ MAX_LOGIN_ATTEMPTS then
        if now - a.lastAttempt < LOCKOUT_TIME then
          (false, m)
        else
          (true, alErase ip m)
      else
        (true, m)

/-- `recordFailedAttempt(ip)` from `src/routes/auth.js`. -/
def recordFailedAttempt (now : Nat) (ip : String)
    (m : List (String × AttemptRecord)) : List (String × AttemptRecord) :=
  let a := (alGet ip m).getD { attempts := 0, lastAttempt := 0 }
  alSet ip { attempts := a.attempts + 1, lastAttempt := now } m

/-- `clearFailedAttempts(ip)` from `src/routes/auth.js`. -/
def clearFailedAttempts (ip : String)
    (m : List (String × AttemptRecord)) : List (String × AttemptRecord) :=
  alErase ip m

/-- The character class `[A-Za-z\d@$!%*?&]` of the Joi password pattern. -/
def passwordClassChar (c : Char) : Bool :=
  c.isAlpha || c.isDigit || specialChar c
where
  /-- The symbol set `@$!%*?&` of the password pattern. -/
  specialChar (c : Char) : Bool :=
    c = '@' || c = '$' || c = '!' || c = '%' || c = '*' || c = '?' || c = '&'

/-- A JavaScript regex line terminator (`.` does not match these). -/
def lineTerm (c : Char) : Bool :=
  c = '\n' || c = '\r' || c.val = 0x2028 || c.val = 0x2029

/-- Test of the Joi password pattern
`^(?=.*[a-z])(?=.*[A-Z])(?=.*\d)(?=.*[@$!%*?&])[A-Za-z\d@$!%*?&]`
from `src/routes/auth.js`.  Each lookahead `(?=.*[X])` at position 0
demands an `X` character preceded only by non-line-terminator characters,
and the final (un-quantified, un-anchored-at-the-end) character class
demands that the FIRST character of the password lies in
`[A-Za-z\d@$!%*?&]`. -/
def passwordPatternTest (p : List Char) : Bool :=
  let reach := p.takeWhile (fun c => !lineTerm c)
  reach.any Char.isLower && reach.any Char.isUpper && reach.any Char.isDigit &&
  reach.any passwordClassChar.specialChar &&
  (match p with
   | [] => false
   | c :: _ => passwordClassChar c)

/-- The `password` rule of `registerSchema`:
`Joi.string().min(8).pattern(...).required()`. -/
def passwordValid (p : String) : Bool :=
  decide (8 ≤ p.length) && passwordPatternTest p.data

/-- The `username` rule of `registerSchema`:
`Joi.string().alphanum().min(3).max(30).required()`. -/
def usernameValid (u : String) : Bool :=
  u.data.all Char.isAlphanum && decide (3 ≤ u.length) && decide (u.length ≤ 30)

/-- A request body for the auth routes: the fields the handlers read. -/
structure Body where
  username : Option String
  password : Option String
deriving DecidableEq, Repr

/-- Whether a body passes `validate(registerSchema)`
(`src/middlewares/validate.js`): both fields present and conforming. -/
def registerBodyValid (b : Body) : Bool :=
  match b.username, b.password with
  | some u, some p => usernameValid u && passwordValid p
  | _, _ => false

/-- Whether a body passes `validate(loginSchema)`: both fields present
and non-empty (`Joi.string().required()` rejects the empty string). -/
def loginBodyValid (b : Body) : Bool :=
  match b.username, b.password with
  | some u, some p => u != "" && p != ""
  | _, _ => false

/-- Outcome of the `requireAuth` middleware. -/
inductive AuthGate where
  | reject (error : String)
  | granted (reqUserId : JSValue)
deriving DecidableEq, Repr

/-- `requireAuth` from `src/middlewares/auth.js`: rejects with 401 when
the session is missing, or when `session.userId` is falsy or neither a
number nor a string; otherwise copies `session.userId` onto `req.userId`
and calls `next()`. -/
def requireAuth (session : Option SessionData) : AuthGate :=
  match session with
  | none => .reject "Session non disponible"
  | some sd =>
      let userId := sd.userId
      if !userId.truthy || (!(userId.isNumOrStr)) then
        .reject "Non autorisé"
      else
        .granted userId

/-- An HTTP JSON response as the handlers build it: status code plus the
optional top-level body fields, with the `user` object rendered as an
association list of field names to serialized values. -/
structure Response where
  status : Nat
  message : Option String := none
  error : Option String := none
  user : Option (List (String × String)) := none
  csrfToken : Option String := none
deriving DecidableEq, Repr

/-- The whole mutable server state: the in-memory user map keyed by
username, the `nextId` counter, the login-attempt map keyed by IP, and
the express-session store keyed by session id. -/
structure AppState where
  users : List (String × User)
  nextId : Nat
  loginAttempts : List (String × AttemptRecord)
  sessions : List (String × SessionData)
deriving DecidableEq, Repr

/-- The password hasher (bcrypt), an external collaborator:
`hash` and `verify plaintext digest` (the argument order of
`bcrypt.compare(password, passwordHash)`). -/
structure Hasher where
  hash : String → String
  verify : String → String → Bool

/-- An incoming HTTP request, reduced to what the middleware chain and
the handlers observe: method, path, session cookie, the csurf token
header, the JSON body, the client IP, the current time in milliseconds,
and fresh entropy for any secret generated during the request. -/
structure Request where
  method : String
  path : String
  sid : String
  csrfToken : Option String
  body : Body
  ip : String
  now : Nat
  entropy : String
  dbHealthy : Bool
deriving DecidableEq, Repr

/-- Modelled from the spec: the anti-forgery token issued for a session,
a derivation of the session-held `csrfSecret` ("the token is derived
from session-held secret material").  The csurf library that computes it
is an external dependency, so the derivation is modelled as an opaque
tagging of the secret. -/
def deriveToken (secret : String) : String :=
  "tok-" ++ secret

/-- Modelled from the spec: csurf ignores safe methods — the enforcement
policy is "required on every state-mutating request (register, login,
logout) and explicitly exempt on safe methods". -/
def csrfExemptMethod (m : String) : Bool :=
  m = "GET" || m = "HEAD" || m = "OPTIONS"

/-- Modelled from the spec: `validate(session, presentedToken)` of the
anti-forgery validator — the presented header token must match a
derivation of the csrf secret of the live session referenced by the
request cookie; a missing token, missing session, or mismatch fails. -/
def csrfTokenOk (req : Request) (s : AppState) : Bool :=
  match alGet req.sid s.sessions, req.csrfToken with
  | some sd, some t => t == deriveToken sd.csrfSecret
  | _, _ => false

/-- The 400 body produced by `src/middlewares/validate.js` carries
`error.details[0].message`, a per-field message generated inside Joi
(an external dependency); no claim depends on its text, so it is
abstracted into one constant. -/
def validationMessage : String := "Erreur de validation"

/-- `GET /csrf-token` (`src/routes/auth.js`): responds with
`req.csrfToken()`.  Touching the csrf machinery materialises the session
(and its secret, drawn from the request entropy) if it did not exist. -/
def csrfTokenHandler (req : Request) (s : AppState) : Response × AppState :=
  match alGet req.sid s.sessions with
  | some sd =>
      ({ status := 200, csrfToken := some (deriveToken sd.csrfSecret) }, s)
  | none =>
      let sd := freshSession req.entropy
      ({ status := 200, csrfToken := some (deriveToken sd.csrfSecret) },
       { s with sessions := alSet req.sid sd s.sessions })

/-- `POST /register` (`src/routes/auth.js` lines 72-88), after
`validate(registerSchema)` has passed: 409 when the username is taken,
otherwise hash the password, store the user under `nextId++`, log the
session in, and answer 201 with the public `{ id, username }` view. -/
def registerHandler (H : Hasher) (req : Request) (s : AppState) :
    Response × AppState :=
  let u := (req.body.username).getD ""
  let p := (req.body.password).getD ""
  match alGet u s.users with
  | some _ =>
      ({ status := 409, error := some "Utilisateur déjà existant" }, s)
  | none =>
      let user : User := { id := s.nextId, username := u, passwordHash := H.hash p }
      let sd := (alGet req.sid s.sessions).getD (freshSession req.entropy)
      let sd' := { sd with userId := .num user.id, username := .str u }
      ({ status := 201, message := some "Utilisateur inscrit avec succès",
         user := some [("id", toString user.id), ("username", user.username)] },
       { s with users := alSet u user s.users,
                nextId := s.nextId + 1,
                sessions := alSet req.sid sd' s.sessions })

/-- `POST /login` (`src/routes/auth.js` lines 91-123), after
`validate(loginSchema)` has passed: attempt gate first (429 when
locked), then user lookup and `bcrypt.compare`, each failure recording
an attempt and answering a uniform 401; success clears the attempt
record, logs the session in and answers 200. -/
def loginHandler (H : Hasher) (req : Request) (s : AppState) :
    Response × AppState :=
  let check := checkLoginAttempts req.now req.ip s.loginAttempts
  let s1 := { s with loginAttempts := check.2 }
  if !check.1 then
    ({ status := 429,
       error := some "Trop de tentatives de connexion. Réessayez dans 15 minutes." },
     s1)
  else
    let u := (req.body.username).getD ""
    let p := (req.body.password).getD ""
    match alGet u s1.users with
    | none =>
        ({ status := 401, error := some "Identifiants invalides" },
         { s1 with loginAttempts := recordFailedAttempt req.now req.ip s1.loginAttempts })
    | some user =>
        if !(H.verify p user.passwordHash) then
          ({ status := 401, error := some "Identifiants invalides" },
           { s1 with loginAttempts := recordFailedAttempt req.now req.ip s1.loginAttempts })
        else
          let sd := (alGet req.sid s1.sessions).getD (freshSession req.entropy)
          let sd' := { sd with userId := .num user.id, username := .str user.username }
          ({ status := 200, message := some "Connecté avec succès",
             user := some [("id", toString user.id), ("username", user.username)] },
           { s1 with loginAttempts := clearFailedAttempts req.ip s1.loginAttempts,
                     sessions := alSet req.sid sd' s1.sessions })

/-- Run a protected handler behind `requireAuth`: a rejection becomes a
401 JSON error and the handler body never executes.  (The third match
arm is unreachable: `requireAuth` only admits an existing session.) -/
def withAuth (sid : String) (s : AppState)
    (k : JSValue → SessionData → Response × AppState) : Response × AppState :=
  match requireAuth (alGet sid s.sessions), alGet sid s.sessions with
  | .reject e, _ => ({ status := 401, error := some e }, s)
  | .granted uid, some sd => k uid sd
  | .granted _, none => ({ status := 401, error := some "Non autorisé" }, s)

/-- `GET /profile` (`src/routes/auth.js` lines 126-129): behind
`requireAuth`, answers 200 with `{ username: req.session.username }`. -/
def profileHandler (req : Request) (s : AppState) : Response × AppState :=
  withAuth req.sid s (fun _ sd =>
    ({ status := 200, message := some "Profil protégé",
       user := some [("username", sd.username.render)] }, s))

/-- `POST /logout` (`src/routes/auth.js` lines 132-138): behind
`requireAuth`, destroys the session and clears the cookie. -/
def logoutHandler (req : Request) (s : AppState) : Response × AppState :=
  withAuth req.sid s (fun _ _ =>
    ({ status := 200, message := some "Déconnecté avec succès" },
     { s with sessions := alErase req.sid s.sessions }))

/-- `GET /health` (`src/routes/index.js`): status from `checkDbHealth`
(200 healthy / 503 otherwise); the uptime/memory details of the body are
environment data irrelevant to every claim and are abstracted. -/
def healthHandler (req : Request) (s : AppState) : Response × AppState :=
  if req.dbHealthy then
    ({ status := 200, message := some "OK" }, s)
  else
    ({ status := 503, message := some "ERROR" }, s)

/-- The router (`src/routes/index.js` mounting `src/routes/auth.js`
under `/auth`, itself mounted under `/api` in `app.js`), with the
`validate` middlewares applied where the source applies them. -/
def route (H : Hasher) (req : Request) (s : AppState) : Response × AppState :=
  if req.method = "GET" ∧ req.path = "/api/auth/csrf-token" then
    csrfTokenHandler req s
  else if req.method = "POST" ∧ req.path = "/api/auth/register" then
    if registerBodyValid req.body then registerHandler H req s
    else ({ status := 400, error := some validationMessage }, s)
  else if req.method = "POST" ∧ req.path = "/api/auth/login" then
    if loginBodyValid req.body then loginHandler H req s
    else ({ status := 400, error := some validationMessage }, s)
  else if req.method = "GET" ∧ req.path = "/api/auth/profile" then
    profileHandler req s
  else if req.method = "POST" ∧ req.path = "/api/auth/logout" then
    logoutHandler req s
  else if req.method = "GET" ∧ req.path = "/api/health" then
    healthHandler req s
  else if req.method = "GET" ∧ req.path = "/api/" then
    ({ status := 200, message := some "Bienvenue sur ton API sécurisée 🔒" }, s)
  else
    ({ status := 404, error := some "Not Found" }, s)

/-- The whole request pipeline of `app.js`: the csurf gate runs before
every route; a failed check raises `EBADCSRFTOKEN`, which the error
handler (`src/middlewares/errorHandler.js` lines 4-6) turns into
403 `Token CSRF invalide`, so no route logic runs. -/
def process (H : Hasher) (req : Request) (s : AppState) : Response × AppState :=
  if csrfExemptMethod req.method then
    route H req s
  else if csrfTokenOk req s then
    route H req s
  else
    ({ status := 403, error := some "Token CSRF invalide" }, s)

/-- A user row of the Prisma-backed variant (`src/services/userService.js`),
with the timestamp columns. -/
structure DbUser where
  id : Nat
  username : String
  passwordHash : String
  createdAt : String
  updatedAt : String
deriving DecidableEq, Repr

/-- `UserService.findById` (`src/services/userService.js` lines 58-70):
`prisma.user.findUnique({ where: { id } })` on the numeric primary key,
selecting only `id`, `username`, `createdAt`, `updatedAt`. -/
def dbFindById (db : List DbUser) (uid : JSValue) : Option DbUser :=
  match uid with
  | .num n => db.find? (fun u => (u.id : Int) == n)
  | _ => none

/-- `GET /profile` of the Prisma variant (`src/routes/index.js` lines
181-192): behind `requireAuth`, look the session user up with
`UserService.findById`; a vanished user yields
404 `Utilisateur non trouvé`, otherwise 200 with the selected columns. -/
def profileHandlerDb (db : List DbUser) (sid : String)
    (sessions : List (String × SessionData)) : Response :=
  match requireAuth (alGet sid sessions) with
  | .reject e => { status := 401, error := some e }
  | .granted uid =>
      match dbFindById db uid with
      | none => { status := 404, error := some "Utilisateur non trouvé" }
      | some u =>
          { status := 200, message := some "Profil protégé",
            user := some [("id", toString u.id), ("username", u.username),
                          ("createdAt", u.createdAt), ("updatedAt", u.updatedAt)] }

/-- Every string value occurring in the serialized response body: the
top-level `message` / `error` / `csrfToken` fields and the values of the
`user` object. -/
def bodyStrings (r : Response) : List String :=
  r.message.toList ++ r.error.toList ++ r.csrfToken.toList ++
  (match r.user with
   | some kvs => kvs.map (fun kv => kv.2)
   | none => [])

/-- The field names of the `user` object of a response. -/
def userKeys (r : Response) : List String :=
  match r.user with
  | some kvs => kvs.map (fun kv => kv.1)
  | none => []

/-- The public user view: the only fields a client-facing user object
may carry. -/
def publicUserKeys : List String :=
  ["id", "username", "createdAt", "updatedAt"]

/-- The fixed literal strings the handlers can place in a body. -/
def fixedBodyStrings : List String :=
  ["Utilisateur déjà existant", "Utilisateur inscrit avec succès",
   "Connecté avec succès", "Identifiants invalides",
   "Trop de tentatives de connexion. Réessayez dans 15 minutes.",
   "Profil protégé", "Non autorisé", "Session non disponible",
   "Déconnecté avec succès", "Token CSRF invalide", validationMessage,
   "OK", "ERROR", "Bienvenue sur ton API sécurisée 🔒", "Not Found",
   "Utilisateur non trouvé"]

/-- The non-secret strings a pipeline response may echo for a given
request and state: fixed messages, the id about to be assigned, the
username submitted in the request, the usernames and serialized ids of
stored users, the rendered session usernames, and the anti-forgery
tokens derivable in the request — a set that excludes every password
hash whenever the hashes are distinct from those public values. -/
def isPublicString (req : Request) (s : AppState) (x : String) : Prop :=
  x ∈ fixedBodyStrings ∨
  x = toString s.nextId ∨
  x = (req.body.username).getD "" ∨
  (∃ kv ∈ s.users, x = (kv : String × User).2.username) ∨
  (∃ kv ∈ s.users, x = toString (kv : String × User).2.id) ∨
  (∃ kv ∈ s.sessions, x = ((kv : String × SessionData).2.username).render) ∨
  (∃ kv ∈ s.sessions, x = deriveToken (kv : String × SessionData).2.csrfSecret) ∨
  x = deriveToken req.entropy

/-- The non-secret strings a Prisma profile response may echo: fixed
messages and the selected public columns of the stored users. -/
def isPublicStringDb (db : List DbUser) (x : String) : Prop :=
  x ∈ fixedBodyStrings ∨
  (∃ u ∈ db, x = (u : DbUser).username) ∨
  (∃ u ∈ db, x = toString (u : DbUser).id) ∨
  (∃ u ∈ db, x = (u : DbUser).createdAt) ∨
  (∃ u ∈ db, x = (u : DbUser).updatedAt)

/-- The five password strength rules exactly as the spec words them:
"≥8 chars, ≥1 upper, ≥1 lower, ≥1 digit, ≥1 symbol from a defined set"
(the set being `@$!%*?&`).  Stated from the spec, for comparison against
`passwordValid`, which is translated from the code. -/
def specPasswordRules (p : String) : Bool :=
  decide (8 ≤ p.length) && p.data.any Char.isLower && p.data.any Char.isUpper &&
  p.data.any Char.isDigit && p.data.any passwordClassChar.specialChar

/-- Whether the first character of a password lies in the regex class
`[A-Za-z\d@$!%*?&]` — the extra requirement the Joi pattern imposes
beyond the five documented rules. -/
def headInPasswordClass (p : String) : Bool :=
  match p.data with
  | [] => false
  | c :: _ => passwordClassChar c

instance (req : Request) (s : AppState) (x : String) :
    Decidable (isPublicString req s x) := by
  unfold isPublicString
  exact inferInstance

instance (db : List DbUser) (x : String) :
    Decidable (isPublicStringDb db x) := by
  unfold isPublicStringDb
  exact inferInstance

/-- A concrete executable hasher used to instantiate witnesses: tags the
plaintext, and verification inverts the tagging. -/
def demoHasher : Hasher :=
  { hash := fun p => "bcrypt-" ++ p, verify := fun p d => d == "bcrypt-" ++ p }

/-- A concrete state with one registered user and a locked-out attempt
record for `ip1` (five failures at time 0). -/
def lockedState : AppState :=
  { users := [("alice123",
      { id := 1, username := "alice123", passwordHash := "bcrypt-Passw0rd!" })],
    nextId := 2,
    loginAttempts := [("ip1", { attempts := 5, lastAttempt := 0 })],
    sessions := [("sid1", freshSession "sec1")] }

/-- A concrete login request from `ip1` carrying the CORRECT credentials
of the stored user, inside the lockout window (10 minutes after the
last failure). -/
def lockedLoginReq : Request :=
  { method := "POST", path := "/api/auth/login", sid := "sid1",
    csrfToken := some (deriveToken "sec1"),
    body := { username := some "alice123", password := some "Passw0rd!" },
    ip := "ip1", now := 600000, entropy := "e1", dbHealthy := true }

/-- A concrete empty initial state with one anonymous session. -/
def rtState : AppState :=
  { users := [], nextId := 1, loginAttempts := [],
    sessions := [("sid1", freshSession "sec1")] }

/-- Round-trip step 1: register `alice123` / `Passw0rd!`. -/
def rtRegisterReq : Request :=
  { method := "POST", path := "/api/auth/register", sid := "sid1",
    csrfToken := some (deriveToken "sec1"),
    body := { username := some "alice123", password := some "Passw0rd!" },
    ip := "ip1", now := 1000, entropy := "e1", dbHealthy := true }

/-- Round-trip step 2: logout the session established by register. -/
def rtLogoutReq : Request :=
  { method := "POST", path := "/api/auth/logout", sid := "sid1",
    csrfToken := some (deriveToken "sec1"),
    body := { username := none, password := none },
    ip := "ip1", now := 2000, entropy := "e2", dbHealthy := true }

/-- Round-trip step 3: fetch a fresh anti-forgery token, which
materialises a new session for the cleared cookie. -/
def rtTokenReq : Request :=
  { method := "GET", path := "/api/auth/csrf-token", sid := "sid1",
    csrfToken := none,
    body := { username := none, password := none },
    ip := "ip1", now := 3000, entropy := "e3", dbHealthy := true }

/-- Round-trip step 4: login with the same credentials and the freshly
issued token. -/
def rtLoginReq : Request :=
  { method := "POST", path := "/api/auth/login", sid := "sid1",
    csrfToken := some (deriveToken "e3"),
    body := { username := some "alice123", password := some "Passw0rd!" },
    ip := "ip1", now := 4000, entropy := "e4", dbHealthy := true }

section Theorems

/- ### Helper lemmas -/

theorem alGet_alSet_self {α : Type} (k : String) (v : α)
    (l : List (String × α)) : alGet k (alSet k v l) = some v := by
  induction l with
  | nil => simp [alSet, alGet]
  | cons hd tl ih =>
      by_cases h : hd.1 = k
      · simp [alSet, alGet, h]
      · simp [alSet, alGet, h, ih]

theorem alGet_mem {α : Type} {k : String} {v : α} {l : List (String × α)}
    (h : alGet k l = some v) : (k, v) ∈ l := by
  induction l with
  | nil => simp [alGet] at h
  | cons hd tl ih =>
      cases hd with
      | mk a b =>
          rw [alGet] at h
          by_cases hk : a = k
          · rw [if_pos hk] at h
            rw [Option.some_inj] at h
            subst hk
            subst h
            exact List.mem_cons_self _ _
          · rw [if_neg hk] at h
            exact List.mem_cons_of_mem _ (ih h)

theorem takeWhile_of_all {f : Char → Bool} {l : List Char}
    (h : l.all f = true) : l.takeWhile f = l := by
  induction l with
  | nil => rfl
  | cons hd tl ih =>
      rw [List.all_cons, Bool.and_eq_true] at h
      rw [List.takeWhile_cons, if_pos h.1, ih h.2]

theorem alGet_alErase_self {α : Type} (k : String) (l : List (String × α)) :
    alGet k (alErase k l) = none := by
  induction l with
  | nil => rfl
  | cons hd tl ih =>
      by_cases h : hd.1 = k
      · simp [alErase, h] at ih ⊢
        exact ih
      · simp [alErase, alGet, h] at ih ⊢
        exact ih

theorem route_token_irrel (H : Hasher) (req : Request) (s : AppState)
    (t : Option String) :
    route H { req with csrfToken := t } s = route H req s := by
  cases req
  rfl

theorem process_login_eq (H : Hasher) (req : Request) (s : AppState)
    (hm : req.method = "POST") (hp : req.path = "/api/auth/login")
    (htok : csrfTokenOk req s = true)
    (hbody : loginBodyValid req.body = true) :
    process H req s = loginHandler H req s := by
  unfold process
  rw [show csrfExemptMethod req.method = false from by rw [hm]; rfl]
  simp only [Bool.false_eq_true, if_false, htok, if_true]
  unfold route
  rw [hm, hp]
  simp [hbody]

theorem process_register_eq (H : Hasher) (req : Request) (s : AppState)
    (hm : req.method = "POST") (hp : req.path = "/api/auth/register")
    (htok : csrfTokenOk req s = true)
    (hbody : registerBodyValid req.body = true) :
    process H req s = registerHandler H req s := by
  unfold process
  rw [show csrfExemptMethod req.method = false from by rw [hm]; rfl]
  simp only [Bool.false_eq_true, if_false, htok, if_true]
  unfold route
  rw [hm, hp]
  simp [hbody]

theorem process_logout_eq (H : Hasher) (req : Request) (s : AppState)
    (hm : req.method = "POST") (hp : req.path = "/api/auth/logout")
    (htok : csrfTokenOk req s = true) :
    process H req s = logoutHandler req s := by
  unfold process
  rw [show csrfExemptMethod req.method = false from by rw [hm]; rfl]
  simp only [Bool.false_eq_true, if_false, htok, if_true]
  unfold route
  rw [hm, hp]
  simp

theorem process_profile_eq (H : Hasher) (req : Request) (s : AppState)
    (hm : req.method = "GET") (hp : req.path = "/api/auth/profile") :
    process H req s = profileHandler req s := by
  unfold process
  rw [show csrfExemptMethod req.method = true from by rw [hm]; rfl]
  unfold route
  rw [hm, hp]
  simp

theorem process_csrfToken_eq (H : Hasher) (req : Request) (s : AppState)
    (hm : req.method = "GET") (hp : req.path = "/api/auth/csrf-token") :
    process H req s = csrfTokenHandler req s := by
  unfold process
  rw [show csrfExemptMethod req.method = true from by rw [hm]; rfl]
  unfold route
  rw [hm, hp]
  simp

theorem loginHandler_unknown (H : Hasher) (req : Request) (s : AppState)
    (hopen : (checkLoginAttempts req.now req.ip s.loginAttempts).1 = true)
    (habs : alGet ((req.body.username).getD "") s.users = none) :
    loginHandler H req s =
      ({ status := 401, error := some "Identifiants invalides" },
       { s with
           loginAttempts :=
             recordFailedAttempt req.now req.ip
               (checkLoginAttempts req.now req.ip s.loginAttempts).2 }) := by
  unfold loginHandler
  simp [hopen, habs]

theorem loginHandler_wrongpw (H : Hasher) (req : Request) (s : AppState)
    (user : User)
    (hopen : (checkLoginAttempts req.now req.ip s.loginAttempts).1 = true)
    (hu : alGet ((req.body.username).getD "") s.users = some user)
    (hv : H.verify ((req.body.password).getD "") user.passwordHash = false) :
    loginHandler H req s =
      ({ status := 401, error := some "Identifiants invalides" },
       { s with
           loginAttempts :=
             recordFailedAttempt req.now req.ip
               (checkLoginAttempts req.now req.ip s.loginAttempts).2 }) := by
  unfold loginHandler
  simp [hopen, hu, hv]

theorem loginHandler_success (H : Hasher) (req : Request) (s : AppState)
    (user : User)
    (hopen : (checkLoginAttempts req.now req.ip s.loginAttempts).1 = true)
    (hu : alGet ((req.body.username).getD "") s.users = some user)
    (hv : H.verify ((req.body.password).getD "") user.passwordHash = true) :
    loginHandler H req s =
      ({ status := 200, message := some "Connecté avec succès",
         user := some [("id", toString user.id), ("username", user.username)] },
       { s with
           loginAttempts :=
             clearFailedAttempts req.ip
               (checkLoginAttempts req.now req.ip s.loginAttempts).2
           sessions :=
             alSet req.sid
               { (alGet req.sid s.sessions).getD (freshSession req.entropy) with
                   userId := .num user.id
                   username := .str user.username }
               s.sessions }) := by
  unfold loginHandler
  simp [hopen, hu, hv]

theorem registerHandler_dup (H : Hasher) (req : Request) (s : AppState)
    (user : User)
    (hu : alGet ((req.body.username).getD "") s.users = some user) :
    registerHandler H req s =
      ({ status := 409, error := some "Utilisateur déjà existant" }, s) := by
  unfold registerHandler
  simp [hu]

theorem registerHandler_new (H : Hasher) (req : Request) (s : AppState)
    (habs : alGet ((req.body.username).getD "") s.users = none) :
    registerHandler H req s =
      ({ status := 201, message := some "Utilisateur inscrit avec succès",
         user := some [("id", toString s.nextId),
                       ("username", (req.body.username).getD "")] },
       { s with
           users :=
             alSet ((req.body.username).getD "")
               { id := s.nextId
                 username := (req.body.username).getD ""
                 passwordHash := H.hash ((req.body.password).getD "") }
               s.users
           nextId := s.nextId + 1
           sessions :=
             alSet req.sid
               { (alGet req.sid s.sessions).getD (freshSession req.entropy) with
                   userId := .num s.nextId
                   username := .str ((req.body.username).getD "") }
               s.sessions }) := by
  unfold registerHandler
  simp [habs]

theorem requireAuth_granted_of_num (sd : SessionData) (n : Int)
    (hid : sd.userId = .num n) (hn : n ≠ 0) :
    requireAuth (some sd) = .granted sd.userId := by
  simp only [requireAuth, hid]
  simp [JSValue.truthy, JSValue.isNumOrStr, hn]

theorem logoutHandler_auth (req : Request) (s : AppState) (sd : SessionData)
    (hsess : alGet req.sid s.sessions = some sd)
    (hgrant : requireAuth (some sd) = .granted sd.userId) :
    logoutHandler req s =
      ({ status := 200, message := some "Déconnecté avec succès" },
       { s with sessions := alErase req.sid s.sessions }) := by
  unfold logoutHandler withAuth
  rw [hsess, hgrant]

theorem csrfTokenHandler_fresh (req : Request) (s : AppState)
    (hnone : alGet req.sid s.sessions = none) :
    csrfTokenHandler req s =
      ({ status := 200, csrfToken := some (deriveToken req.entropy) },
       { s with sessions := alSet req.sid (freshSession req.entropy) s.sessions }) := by
  unfold csrfTokenHandler
  rw [hnone]
  rfl

theorem loginHandler_not_locked_status (H : Hasher) (req : Request)
    (s : AppState)
    (hopen : (checkLoginAttempts req.now req.ip s.loginAttempts).1 = true) :
    (loginHandler H req s).1.status = 401 ∨
      (loginHandler H req s).1.status = 200 := by
  cases hu : alGet ((req.body.username).getD "") s.users with
  | none =>
      rw [loginHandler_unknown H req s hopen hu]
      exact Or.inl rfl
  | some user =>
      cases hv : H.verify ((req.body.password).getD "") user.passwordHash with
      | false =>
          rw [loginHandler_wrongpw H req s user hopen hu hv]
          exact Or.inl rfl
      | true =>
          rw [loginHandler_success H req s user hopen hu hv]
          exact Or.inr rfl

theorem requireAuth_reject_msg {sess : Option SessionData} {e : String}
    (h : requireAuth sess = .reject e) :
    e = "Session non disponible" ∨ e = "Non autorisé" := by
  cases sess with
  | none =>
      simp [requireAuth] at h
      exact Or.inl h.symm
  | some sd =>
      unfold requireAuth at h
      cases h1 : sd.userId.truthy <;> cases h2 : sd.userId.isNumOrStr <;>
          simp [h1, h2] at h <;> exact Or.inr h.symm

theorem dbFindById_mem {db : List DbUser} {uid : JSValue} {u : DbUser}
    (h : dbFindById db uid = some u) : u ∈ db := by
  cases uid with
  | num n =>
      unfold dbFindById at h
      exact List.mem_of_find?_eq_some h
  | undefined => simp [dbFindById] at h
  | null => simp [dbFindById] at h
  | str s => simp [dbFindById] at h
  | boolean b => simp [dbFindById] at h

theorem c5_csrfTok (req : Request) (s : AppState) :
    (∀ k ∈ userKeys (csrfTokenHandler req s).1, k ∈ publicUserKeys) ∧
    (∀ x ∈ bodyStrings (csrfTokenHandler req s).1, isPublicString req s x) := by
  unfold csrfTokenHandler
  cases hsess : alGet req.sid s.sessions with
  | some sd =>
      constructor
      · intro k hk
        simp [userKeys] at hk
      · intro x hx
        simp [bodyStrings] at hx
        subst hx
        exact Or.inr (Or.inr (Or.inr (Or.inr (Or.inr (Or.inr
          (Or.inl ⟨(req.sid, sd), alGet_mem hsess, rfl⟩))))))
  | none =>
      constructor
      · intro k hk
        simp [userKeys] at hk
      · intro x hx
        simp [bodyStrings, freshSession] at hx
        subst hx
        exact Or.inr (Or.inr (Or.inr (Or.inr (Or.inr (Or.inr (Or.inr rfl))))))

theorem c5_register (H : Hasher) (req : Request) (s : AppState) :
    (∀ k ∈ userKeys (registerHandler H req s).1, k ∈ publicUserKeys) ∧
    (∀ x ∈ bodyStrings (registerHandler H req s).1, isPublicString req s x) := by
  cases hu : alGet ((req.body.username).getD "") s.users with
  | some user =>
      rw [registerHandler_dup H req s user hu]
      constructor
      · intro k hk
        simp [userKeys] at hk
      · intro x hx
        simp [bodyStrings] at hx
        subst hx
        exact Or.inl (by decide)
  | none =>
      rw [registerHandler_new H req s hu]
      constructor
      · intro k hk
        simp [userKeys] at hk
        rcases hk with h | h <;> subst h <;> decide
      · intro x hx
        simp [bodyStrings] at hx
        rcases hx with h | h | h
        · subst h
          exact Or.inl (by decide)
        · subst h
          exact Or.inr (Or.inl rfl)
        · subst h
          exact Or.inr (Or.inr (Or.inl rfl))

theorem c5_login (H : Hasher) (req : Request) (s : AppState) :
    (∀ k ∈ userKeys (loginHandler H req s).1, k ∈ publicUserKeys) ∧
    (∀ x ∈ bodyStrings (loginHandler H req s).1, isPublicString req s x) := by
  cases hgate : (checkLoginAttempts req.now req.ip s.loginAttempts).1 with
  | false =>
      have hL : loginHandler H req s =
          ({ status := 429,
             error := some "Trop de tentatives de connexion. Réessayez dans 15 minutes." },
           { s with loginAttempts := (checkLoginAttempts req.now req.ip s.loginAttempts).2 }) := by
        simp only [loginHandler]
        rw [hgate]
        rfl
      rw [hL]
      constructor
      · intro k hk
        simp [userKeys] at hk
      · intro x hx
        simp [bodyStrings] at hx
        subst hx
        exact Or.inl (by decide)
  | true =>
      cases hu : alGet ((req.body.username).getD "") s.users with
      | none =>
          rw [loginHandler_unknown H req s hgate hu]
          constructor
          · intro k hk
            simp [userKeys] at hk
          · intro x hx
            simp [bodyStrings] at hx
            subst hx
            exact Or.inl (by decide)
      | some user =>
          cases hv : H.verify ((req.body.password).getD "") user.passwordHash with
          | false =>
              rw [loginHandler_wrongpw H req s user hgate hu hv]
              constructor
              · intro k hk
                simp [userKeys] at hk
              · intro x hx
                simp [bodyStrings] at hx
                subst hx
                exact Or.inl (by decide)
          | true =>
              rw [loginHandler_success H req s user hgate hu hv]
              constructor
              · intro k hk
                simp [userKeys] at hk
                rcases hk with h | h <;> subst h <;> decide
              · intro x hx
                simp [bodyStrings] at hx
                rcases hx with h | h | h
                · subst h
                  exact Or.inl (by decide)
                · subst h
                  exact Or.inr (Or.inr (Or.inr (Or.inr
                    (Or.inl ⟨((req.body.username).getD "", user), alGet_mem hu, rfl⟩))))
                · subst h
                  exact Or.inr (Or.inr (Or.inr
                    (Or.inl ⟨((req.body.username).getD "", user), alGet_mem hu, rfl⟩)))

theorem c5_profile (req : Request) (s : AppState) :
    (∀ k ∈ userKeys (profileHandler req s).1, k ∈ publicUserKeys) ∧
    (∀ x ∈ bodyStrings (profileHandler req s).1, isPublicString req s x) := by
  unfold profileHandler withAuth
  cases hsess : alGet req.sid s.sessions with
  | none =>
      cases hga : requireAuth none with
      | reject e =>
          constructor
          · intro k hk
            simp [userKeys] at hk
          · intro x hx
            simp [bodyStrings] at hx
            subst hx
            rcases requireAuth_reject_msg hga with h | h <;> subst h <;>
              exact Or.inl (by decide)
      | granted v =>
          constructor
          · intro k hk
            simp [userKeys] at hk
          · intro x hx
            simp [bodyStrings] at hx
            subst hx
            exact Or.inl (by decide)
  | some sd =>
      cases hga : requireAuth (some sd) with
      | reject e =>
          constructor
          · intro k hk
            simp [userKeys] at hk
          · intro x hx
            simp [bodyStrings] at hx
            subst hx
            rcases requireAuth_reject_msg hga with h | h <;> subst h <;>
              exact Or.inl (by decide)
      | granted v =>
          constructor
          · intro k hk
            simp [userKeys] at hk
            subst hk
            decide
          · intro x hx
            simp [bodyStrings] at hx
            rcases hx with h | h
            · subst h
              exact Or.inl (by decide)
            · subst h
              exact Or.inr (Or.inr (Or.inr (Or.inr (Or.inr
                (Or.inl ⟨(req.sid, sd), alGet_mem hsess, rfl⟩)))))

theorem c5_logout (req : Request) (s : AppState) :
    (∀ k ∈ userKeys (logoutHandler req s).1, k ∈ publicUserKeys) ∧
    (∀ x ∈ bodyStrings (logoutHandler req s).1, isPublicString req s x) := by
  unfold logoutHandler withAuth
  cases hsess : alGet req.sid s.sessions with
  | none =>
      cases hga : requireAuth none with
      | reject e =>
          constructor
          · intro k hk
            simp [userKeys] at hk
          · intro x hx
            simp [bodyStrings] at hx
            subst hx
            rcases requireAuth_reject_msg hga with h | h <;> subst h <;>
              exact Or.inl (by decide)
      | granted v =>
          constructor
          · intro k hk
            simp [userKeys] at hk
          · intro x hx
            simp [bodyStrings] at hx
            subst hx
            exact Or.inl (by decide)
  | some sd =>
      cases hga : requireAuth (some sd) with
      | reject e =>
          constructor
          · intro k hk
            simp [userKeys] at hk
          · intro x hx
            simp [bodyStrings] at hx
            subst hx
            rcases requireAuth_reject_msg hga with h | h <;> subst h <;>
              exact Or.inl (by decide)
      | granted v =>
          constructor
          · intro k hk
            simp [userKeys] at hk
          · intro x hx
            simp [bodyStrings] at hx
            subst hx
            exact Or.inl (by decide)

theorem c5_health (req : Request) (s : AppState) :
    (∀ k ∈ userKeys (healthHandler req s).1, k ∈ publicUserKeys) ∧
    (∀ x ∈ bodyStrings (healthHandler req s).1, isPublicString req s x) := by
  unfold healthHandler
  cases hdb : req.dbHealthy with
  | true =>
      constructor
      · intro k hk
        simp [userKeys] at hk
      · intro x hx
        simp [bodyStrings] at hx
        subst hx
        exact Or.inl (by decide)
  | false =>
      constructor
      · intro k hk
        simp [userKeys] at hk
      · intro x hx
        simp [bodyStrings] at hx
        subst hx
        exact Or.inl (by decide)

theorem c5_route (H : Hasher) (req : Request) (s : AppState) :
    (∀ k ∈ userKeys (route H req s).1, k ∈ publicUserKeys) ∧
    (∀ x ∈ bodyStrings (route H req s).1, isPublicString req s x) := by
  unfold route
  by_cases h1 : req.method = "GET" ∧ req.path = "/api/auth/csrf-token"
  · rw [if_pos h1]
    exact c5_csrfTok req s
  · rw [if_neg h1]
    by_cases h2 : req.method = "POST" ∧ req.path = "/api/auth/register"
    · rw [if_pos h2]
      by_cases hv : registerBodyValid req.body = true
      · rw [if_pos hv]
        exact c5_register H req s
      · rw [if_neg hv]
        refine ⟨fun k hk => by simp [userKeys] at hk, fun x hx => ?_⟩
        simp [bodyStrings] at hx
        subst hx
        exact Or.inl (by decide)
    · rw [if_neg h2]
      by_cases h3 : req.method = "POST" ∧ req.path = "/api/auth/login"
      · rw [if_pos h3]
        by_cases hv : loginBodyValid req.body = true
        · rw [if_pos hv]
          exact c5_login H req s
        · rw [if_neg hv]
          refine ⟨fun k hk => by simp [userKeys] at hk, fun x hx => ?_⟩
          simp [bodyStrings] at hx
          subst hx
          exact Or.inl (by decide)
      · rw [if_neg h3]
        by_cases h4 : req.method = "GET" ∧ req.path = "/api/auth/profile"
        · rw [if_pos h4]
          exact c5_profile req s
        · rw [if_neg h4]
          by_cases h5 : req.method = "POST" ∧ req.path = "/api/auth/logout"
          · rw [if_pos h5]
            exact c5_logout req s
          · rw [if_neg h5]
            by_cases h6 : req.method = "GET" ∧ req.path = "/api/health"
            · rw [if_pos h6]
              exact c5_health req s
            · rw [if_neg h6]
              by_cases h7 : req.method = "GET" ∧ req.path = "/api/"
              · rw [if_pos h7]
                refine ⟨fun k hk => by simp [userKeys] at hk, fun x hx => ?_⟩
                simp [bodyStrings] at hx
                subst hx
                exact Or.inl (by decide)
              · rw [if_neg h7]
                refine ⟨fun k hk => by simp [userKeys] at hk, fun x hx => ?_⟩
                simp [bodyStrings] at hx
                subst hx
                exact Or.inl (by decide)

theorem c5_process (H : Hasher) (req : Request) (s : AppState) :
    (∀ k ∈ userKeys (process H req s).1, k ∈ publicUserKeys) ∧
    (∀ x ∈ bodyStrings (process H req s).1, isPublicString req s x) := by
  unfold process
  by_cases hex : csrfExemptMethod req.method = true
  · rw [if_pos hex]
    exact c5_route H req s
  · rw [if_neg hex]
    by_cases hok : csrfTokenOk req s = true
    · rw [if_pos hok]
      exact c5_route H req s
    · rw [if_neg hok]
      refine ⟨fun k hk => by simp [userKeys] at hk, fun x hx => ?_⟩
      simp [bodyStrings] at hx
      subst hx
      exact Or.inl (by decide)

theorem profileHandlerDb_granted {db : List DbUser} {sid : String}
    {sessions : List (String × SessionData)} {uid : JSValue}
    (hga : requireAuth (alGet sid sessions) = .granted uid) :
    profileHandlerDb db sid sessions =
      match dbFindById db uid with
      | none => { status := 404, error := some "Utilisateur non trouvé" }
      | some u =>
          { status := 200, message := some "Profil protégé",
            user := some [("id", toString u.id), ("username", u.username),
                          ("createdAt", u.createdAt), ("updatedAt", u.updatedAt)] } := by
  unfold profileHandlerDb
  rw [hga]

theorem c5_profileDb (db : List DbUser) (sid : String)
    (sessions : List (String × SessionData)) :
    (∀ k ∈ userKeys (profileHandlerDb db sid sessions), k ∈ publicUserKeys) ∧
    (∀ x ∈ bodyStrings (profileHandlerDb db sid sessions), isPublicStringDb db x) := by
  cases hga : requireAuth (alGet sid sessions) with
  | reject e =>
      have hred : profileHandlerDb db sid sessions =
          { status := 401, error := some e } := by
        unfold profileHandlerDb
        rw [hga]
      rw [hred]
      constructor
      · intro k hk
        simp [userKeys] at hk
      · intro x hx
        simp [bodyStrings] at hx
        subst hx
        rcases requireAuth_reject_msg hga with h | h <;> subst h <;>
          exact Or.inl (by decide)
  | granted uid =>
      rw [profileHandlerDb_granted hga]
      cases hfind : dbFindById db uid with
      | none =>
          constructor
          · intro k hk
            simp [userKeys] at hk
          · intro x hx
            simp [bodyStrings] at hx
            subst hx
            exact Or.inl (by decide)
      | some u =>
          constructor
          · intro k hk
            simp [userKeys] at hk
            rcases hk with h | h | h | h <;> subst h <;> decide
          · intro x hx
            simp [bodyStrings] at hx
            rcases hx with h | h | h | h | h
            · subst h
              exact Or.inl (by decide)
            · subst h
              exact Or.inr (Or.inr (Or.inl ⟨u, dbFindById_mem hfind, rfl⟩))
            · subst h
              exact Or.inr (Or.inl ⟨u, dbFindById_mem hfind, rfl⟩)
            · subst h
              exact Or.inr (Or.inr (Or.inr (Or.inl ⟨u, dbFindById_mem hfind, rfl⟩)))
            · subst h
              exact Or.inr (Or.inr (Or.inr (Or.inr ⟨u, dbFindById_mem hfind, rfl⟩)))

/- ### Claims -/

/-- C1: the login attempt gate refuses exactly the identifiers whose
record has `failureCount ≥ 5` with less than 15 minutes elapsed since
`lastFailureAt`; and a login request from a locked-out source is
answered 429 `Trop de tentatives de connexion. Réessayez dans 15
minutes.` with the whole state unchanged — in particular before any user
lookup or password check, whatever credentials the request carries. -/
theorem claim_C1 :
    (∀ (now : Nat) (ip : String) (m : List (String × AttemptRecord)),
      (checkLoginAttempts now ip m).1 = false ↔
        ∃ r, alGet ip m = some r ∧ MAX_LOGIN_ATTEMPTS ≤ r.attempts ∧
          now - r.lastAttempt < LOCKOUT_TIME) ∧
    (∀ (H : Hasher) (req : Request) (s : AppState) (r : AttemptRecord),
      req.method = "POST" → req.path = "/api/auth/login" →
      csrfTokenOk req s = true → loginBodyValid req.body = true →
      alGet req.ip s.loginAttempts = some r →
      MAX_LOGIN_ATTEMPTS ≤ r.attempts →
      req.now - r.lastAttempt < LOCKOUT_TIME →
      process H req s =
        ({ status := 429,
           error := some "Trop de tentatives de connexion. Réessayez dans 15 minutes." },
         s)) := by
  constructor
  · intro now ip m
    unfold checkLoginAttempts
    cases h : alGet ip m with
    | none => simp [h]
    | some a =>
        by_cases h1 : MAX_LOGIN_ATTEMPTS ≤ a.attempts
        · by_cases h2 : now - a.lastAttempt < LOCKOUT_TIME
          · simp [h, h1, h2]
          · simp [h, h1, h2]
        · simp [h, h1]
  · intro H req s r hm hp htok hbody hr hcnt hwin
    have hex : csrfExemptMethod req.method = false := by
      rw [hm]; rfl
    have hgate : (checkLoginAttempts req.now req.ip s.loginAttempts) =
        (false, s.loginAttempts) := by
      unfold checkLoginAttempts
      rw [hr]
      simp [hcnt, hwin]
    unfold process
    rw [hex]
    simp only [Bool.false_eq_true, if_false, htok, if_true]
    unfold route
    rw [hm, hp]
    simp only [String.reduceEq, false_and, if_false, and_self, if_true, hbody]
    unfold loginHandler
    rw [hgate]
    simp

/-- Witness for C1: at the concrete locked-out state, a login carrying
the stored user's correct password is answered 429 and changes nothing. -/
theorem claim_C1_witness :
    process demoHasher lockedLoginReq lockedState =
      ({ status := 429,
         error := some "Trop de tentatives de connexion. Réessayez dans 15 minutes." },
       lockedState) :=
  claim_C1.2 demoHasher lockedLoginReq lockedState
    { attempts := 5, lastAttempt := 0 }
    rfl rfl (by decide) (by decide) (by decide) (by decide) (by decide)

/-- C2: a mutating request (any non-safe method, so register, login and
logout) whose anti-forgery token does not validate is answered
403 `Token CSRF invalide` with the whole state — user store, sessions,
attempt counters — unchanged, before any route logic runs; and on safe
methods (token retrieval, profile read, health check are all GET) the
pipeline result does not depend on the presented token at all. -/
theorem claim_C2 :
    (∀ (H : Hasher) (req : Request) (s : AppState),
      csrfExemptMethod req.method = false →
      csrfTokenOk req s = false →
      process H req s =
        ({ status := 403, error := some "Token CSRF invalide" }, s)) ∧
    (∀ (H : Hasher) (req : Request) (s : AppState) (t1 t2 : Option String),
      csrfExemptMethod req.method = true →
      process H { req with csrfToken := t1 } s =
        process H { req with csrfToken := t2 } s) := by
  constructor
  · intro H req s hex hbad
    unfold process
    rw [hex, hbad]
    simp
  · intro H req s t1 t2 hex
    unfold process
    rw [show csrfExemptMethod ({ req with csrfToken := t1 } : Request).method = true
          from hex]
    simp only [reduceIte]
    rw [route_token_irrel H req s t1, route_token_irrel H req s t2]

/-- Witness for C2: a register request with a wrong token bounces with
403 and the concrete state is untouched, and a GET profile request gets
the same answer whether it presents no token or a bogus one. -/
theorem claim_C2_witness :
    process demoHasher
      { lockedLoginReq with path := "/api/auth/register", csrfToken := some "wrong" }
      lockedState =
      ({ status := 403, error := some "Token CSRF invalide" }, lockedState) ∧
    process demoHasher
      { lockedLoginReq with
          method := "GET"
          path := "/api/auth/profile"
          csrfToken := none } lockedState =
      process demoHasher
        { lockedLoginReq with
            method := "GET"
            path := "/api/auth/profile"
            csrfToken := some "bogus" } lockedState :=
  ⟨claim_C2.1 demoHasher
      { lockedLoginReq with path := "/api/auth/register", csrfToken := some "wrong" }
      lockedState (by decide) (by decide),
   claim_C2.2 demoHasher
      { lockedLoginReq with method := "GET", path := "/api/auth/profile" }
      lockedState none (some "bogus") (by decide)⟩

/-- Counterexample to C3 as stated: the identifier `ip1` has a recorded
`failureCount` of 3 whose 15-minute window has fully elapsed
(`now - lastFailureAt = LOCKOUT_TIME`).  The next (failing) login
attempt is indeed allowed through the gate (it answers 401, not 429),
but the failure count then recorded is the old count plus one — 4 —
and not the fresh count 1 the claim asserts. -/
theorem claim_C3_cex :
    (process demoHasher
       { method := "POST", path := "/api/auth/login", sid := "sid1",
         csrfToken := some (deriveToken "sec1"),
         body := { username := some "ghost99", password := some "x" },
         ip := "ip1", now := 900000, entropy := "e1", dbHealthy := true }
       { users := [], nextId := 1,
         loginAttempts := [("ip1", { attempts := 3, lastAttempt := 0 })],
         sessions := [("sid1", freshSession "sec1")] }).1.status = 401 ∧
    alGet "ip1"
      (process demoHasher
         { method := "POST", path := "/api/auth/login", sid := "sid1",
           csrfToken := some (deriveToken "sec1"),
           body := { username := some "ghost99", password := some "x" },
           ip := "ip1", now := 900000, entropy := "e1", dbHealthy := true }
         { users := [], nextId := 1,
           loginAttempts := [("ip1", { attempts := 3, lastAttempt := 0 })],
           sessions := [("sid1", freshSession "sec1")] }).2.loginAttempts =
      some { attempts := 4, lastAttempt := 900000 } ∧
    (∀ r : AttemptRecord,
      alGet "ip1"
        (process demoHasher
           { method := "POST", path := "/api/auth/login", sid := "sid1",
             csrfToken := some (deriveToken "sec1"),
             body := { username := some "ghost99", password := some "x" },
             ip := "ip1", now := 900000, entropy := "e1", dbHealthy := true }
           { users := [], nextId := 1,
             loginAttempts := [("ip1", { attempts := 3, lastAttempt := 0 })],
             sessions := [("sid1", freshSession "sec1")] }).2.loginAttempts =
        some r → r.attempts ≠ 1) := by
  refine ⟨by decide, by decide, ?_⟩
  intro r hr
  have : r = { attempts := 4, lastAttempt := 900000 } := by
    rw [show alGet "ip1"
      (process demoHasher
         { method := "POST", path := "/api/auth/login", sid := "sid1",
           csrfToken := some (deriveToken "sec1"),
           body := { username := some "ghost99", password := some "x" },
           ip := "ip1", now := 900000, entropy := "e1", dbHealthy := true }
         { users := [], nextId := 1,
           loginAttempts := [("ip1", { attempts := 3, lastAttempt := 0 })],
           sessions := [("sid1", freshSession "sec1")] }).2.loginAttempts =
      some { attempts := 4, lastAttempt := 900000 } from by decide] at hr
    exact (Option.some_inj.mp hr).symm
  rw [this]
  decide

/-- C3 as amended by the counterexample: the implicit reset on window
expiry applies only to locked-out records (`failureCount ≥ 5`) — there
the next attempt is allowed and a subsequent failure restarts the count
at 1; a record with `failureCount < 5` never blocks (so the attempt is
also allowed), but it is NOT reset by the elapse of the window: a
subsequent failure records the old count plus one. -/
theorem claim_C3 :
    (∀ (H : Hasher) (req : Request) (s : AppState) (r : AttemptRecord),
      req.method = "POST" → req.path = "/api/auth/login" →
      csrfTokenOk req s = true → loginBodyValid req.body = true →
      alGet req.ip s.loginAttempts = some r →
      MAX_LOGIN_ATTEMPTS ≤ r.attempts →
      LOCKOUT_TIME ≤ req.now - r.lastAttempt →
      (process H req s).1.status ≠ 429 ∧
      (alGet ((req.body.username).getD "") s.users = none →
        alGet req.ip (process H req s).2.loginAttempts =
          some { attempts := 1, lastAttempt := req.now })) ∧
    (∀ (H : Hasher) (req : Request) (s : AppState) (r : AttemptRecord),
      req.method = "POST" → req.path = "/api/auth/login" →
      csrfTokenOk req s = true → loginBodyValid req.body = true →
      alGet req.ip s.loginAttempts = some r →
      r.attempts < MAX_LOGIN_ATTEMPTS →
      (process H req s).1.status ≠ 429 ∧
      (alGet ((req.body.username).getD "") s.users = none →
        alGet req.ip (process H req s).2.loginAttempts =
          some { attempts := r.attempts + 1, lastAttempt := req.now })) := by
  constructor
  · intro H req s r hm hp htok hbody hr hcnt helapsed
    have hgate : checkLoginAttempts req.now req.ip s.loginAttempts =
        (true, alErase req.ip s.loginAttempts) := by
      unfold checkLoginAttempts
      rw [hr]
      simp [hcnt, Nat.not_lt.mpr helapsed]
    have hopen : (checkLoginAttempts req.now req.ip s.loginAttempts).1 = true := by
      rw [hgate]
    have he : process H req s = loginHandler H req s :=
      process_login_eq H req s hm hp htok hbody
    constructor
    · rw [he]
      rcases loginHandler_not_locked_status H req s hopen with h | h <;> omega
    · intro habs
      rw [he, loginHandler_unknown H req s hopen habs]
      simp only [hgate]
      unfold recordFailedAttempt
      rw [alGet_alErase_self]
      simp [alGet_alSet_self]
  · intro H req s r hm hp htok hbody hr hcnt
    have hgate : checkLoginAttempts req.now req.ip s.loginAttempts =
        (true, s.loginAttempts) := by
      unfold checkLoginAttempts
      rw [hr]
      simp [Nat.not_le.mpr hcnt]
    have hopen : (checkLoginAttempts req.now req.ip s.loginAttempts).1 = true := by
      rw [hgate]
    have he : process H req s = loginHandler H req s :=
      process_login_eq H req s hm hp htok hbody
    constructor
    · rw [he]
      rcases loginHandler_not_locked_status H req s hopen with h | h <;> omega
    · intro habs
      rw [he, loginHandler_unknown H req s hopen habs]
      simp only [hgate]
      unfold recordFailedAttempt
      rw [hr]
      simp [alGet_alSet_self]

/-- Witness for the amended C3: concretely, a locked-out record (5
failures) whose window has elapsed restarts at count 1 on the next
failure, while a 3-failure record with the window equally elapsed moves
to count 4. -/
theorem claim_C3_witness :
    ((process demoHasher
        { method := "POST", path := "/api/auth/login", sid := "sid1",
          csrfToken := some (deriveToken "sec1"),
          body := { username := some "ghost99", password := some "x" },
          ip := "ip1", now := 900000, entropy := "e1", dbHealthy := true }
        { users := [], nextId := 1,
          loginAttempts := [("ip1", { attempts := 5, lastAttempt := 0 })],
          sessions := [("sid1", freshSession "sec1")] }).1.status ≠ 429 ∧
      alGet "ip1"
        (process demoHasher
           { method := "POST", path := "/api/auth/login", sid := "sid1",
             csrfToken := some (deriveToken "sec1"),
             body := { username := some "ghost99", password := some "x" },
             ip := "ip1", now := 900000, entropy := "e1", dbHealthy := true }
           { users := [], nextId := 1,
             loginAttempts := [("ip1", { attempts := 5, lastAttempt := 0 })],
             sessions := [("sid1", freshSession "sec1")] }).2.loginAttempts =
        some { attempts := 1, lastAttempt := 900000 }) ∧
    ((process demoHasher
        { method := "POST", path := "/api/auth/login", sid := "sid1",
          csrfToken := some (deriveToken "sec1"),
          body := { username := some "ghost99", password := some "x" },
          ip := "ip1", now := 900000, entropy := "e1", dbHealthy := true }
        { users := [], nextId := 1,
          loginAttempts := [("ip1", { attempts := 3, lastAttempt := 0 })],
          sessions := [("sid1", freshSession "sec1")] }).1.status ≠ 429 ∧
      alGet "ip1"
        (process demoHasher
           { method := "POST", path := "/api/auth/login", sid := "sid1",
             csrfToken := some (deriveToken "sec1"),
             body := { username := some "ghost99", password := some "x" },
             ip := "ip1", now := 900000, entropy := "e1", dbHealthy := true }
           { users := [], nextId := 1,
             loginAttempts := [("ip1", { attempts := 3, lastAttempt := 0 })],
             sessions := [("sid1", freshSession "sec1")] }).2.loginAttempts =
        some { attempts := 3 + 1, lastAttempt := 900000 }) := by
  constructor
  · have h := claim_C3.1 demoHasher
      { method := "POST", path := "/api/auth/login", sid := "sid1",
        csrfToken := some (deriveToken "sec1"),
        body := { username := some "ghost99", password := some "x" },
        ip := "ip1", now := 900000, entropy := "e1", dbHealthy := true }
      { users := [], nextId := 1,
        loginAttempts := [("ip1", { attempts := 5, lastAttempt := 0 })],
        sessions := [("sid1", freshSession "sec1")] }
      { attempts := 5, lastAttempt := 0 }
      rfl rfl (by decide) (by decide) (by decide) (by decide) (by decide)
    exact ⟨h.1, h.2 (by decide)⟩
  · have h := claim_C3.2 demoHasher
      { method := "POST", path := "/api/auth/login", sid := "sid1",
        csrfToken := some (deriveToken "sec1"),
        body := { username := some "ghost99", password := some "x" },
        ip := "ip1", now := 900000, entropy := "e1", dbHealthy := true }
      { users := [], nextId := 1,
        loginAttempts := [("ip1", { attempts := 3, lastAttempt := 0 })],
        sessions := [("sid1", freshSession "sec1")] }
      { attempts := 3, lastAttempt := 0 }
      rfl rfl (by decide) (by decide) (by decide) (by decide)
    exact ⟨h.1, h.2 (by decide)⟩

/-- C4: for two login requests that pass the gate, one naming a
username absent from the store and one naming a stored user with a
password that fails verification, both responses carry status 401 and
the identical error string `Identifiants invalides`. -/
theorem claim_C4 (H : Hasher) (s : AppState) (req1 req2 : Request)
    (u2 : String) (user : User)
    (hm1 : req1.method = "POST") (hp1 : req1.path = "/api/auth/login")
    (hm2 : req2.method = "POST") (hp2 : req2.path = "/api/auth/login")
    (htok1 : csrfTokenOk req1 s = true) (htok2 : csrfTokenOk req2 s = true)
    (hbody1 : loginBodyValid req1.body = true)
    (hbody2 : loginBodyValid req2.body = true)
    (hopen1 : (checkLoginAttempts req1.now req1.ip s.loginAttempts).1 = true)
    (hopen2 : (checkLoginAttempts req2.now req2.ip s.loginAttempts).1 = true)
    (habs : alGet ((req1.body.username).getD "") s.users = none)
    (hu2 : req2.body.username = some u2)
    (hfound : alGet u2 s.users = some user)
    (hwrong : H.verify ((req2.body.password).getD "") user.passwordHash = false) :
    (process H req1 s).1.status = 401 ∧
    (process H req2 s).1.status = 401 ∧
    (process H req1 s).1.error = (process H req2 s).1.error ∧
    (process H req1 s).1.error = some "Identifiants invalides" := by
  have e1 : process H req1 s = loginHandler H req1 s :=
    process_login_eq H req1 s hm1 hp1 htok1 hbody1
  have e2 : process H req2 s = loginHandler H req2 s :=
    process_login_eq H req2 s hm2 hp2 htok2 hbody2
  have hfound' : alGet ((req2.body.username).getD "") s.users = some user := by
    rw [hu2]
    exact hfound
  have r1 := loginHandler_unknown H req1 s hopen1 habs
  have r2 := loginHandler_wrongpw H req2 s user hopen2 hfound' hwrong
  rw [e1, e2, r1, r2]
  exact ⟨rfl, rfl, rfl, rfl⟩

/-- Witness for C4: concretely, logging in as the unknown `ghost99` and
as the stored `alice123` with a wrong password yield the same 401 and
the same error string. -/
theorem claim_C4_witness :
    (process demoHasher
       { lockedLoginReq with
           body := { username := some "ghost99", password := some "Whatever1!" } }
       { lockedState with loginAttempts := [] }).1.status = 401 ∧
    (process demoHasher
       { lockedLoginReq with
           body := { username := some "alice123", password := some "Wrong1!aa" } }
       { lockedState with loginAttempts := [] }).1.status = 401 ∧
    (process demoHasher
       { lockedLoginReq with
           body := { username := some "ghost99", password := some "Whatever1!" } }
       { lockedState with loginAttempts := [] }).1.error =
      (process demoHasher
         { lockedLoginReq with
             body := { username := some "alice123", password := some "Wrong1!aa" } }
         { lockedState with loginAttempts := [] }).1.error ∧
    (process demoHasher
       { lockedLoginReq with
           body := { username := some "ghost99", password := some "Whatever1!" } }
       { lockedState with loginAttempts := [] }).1.error =
      some "Identifiants invalides" :=
  claim_C4 demoHasher { lockedState with loginAttempts := [] }
    { lockedLoginReq with
        body := { username := some "ghost99", password := some "Whatever1!" } }
    { lockedLoginReq with
        body := { username := some "alice123", password := some "Wrong1!aa" } }
    "alice123"
    { id := 1, username := "alice123", passwordHash := "bcrypt-Passw0rd!" }
    rfl rfl rfl rfl (by decide) (by decide) (by decide) (by decide)
    (by decide) (by decide) (by decide) rfl (by decide) (by decide)

/-- C6: once a register for username `u` has succeeded, a second
register for `u` — with any password passing validation and a valid
anti-forgery token — is answered 409 `Utilisateur déjà existant` and
leaves the state (in particular the stored user record) unchanged. -/
theorem claim_C6 (H : Hasher) (s : AppState) (req1 req2 : Request)
    (u p1 p2 : String)
    (hb1 : req1.body = { username := some u, password := some p1 })
    (hb2 : req2.body = { username := some u, password := some p2 })
    (hm1 : req1.method = "POST") (hp1 : req1.path = "/api/auth/register")
    (hm2 : req2.method = "POST") (hp2 : req2.path = "/api/auth/register")
    (hv1 : registerBodyValid req1.body = true)
    (hv2 : registerBodyValid req2.body = true)
    (htok1 : csrfTokenOk req1 s = true)
    (htok2 : csrfTokenOk req2 (process H req1 s).2 = true)
    (habs : alGet u s.users = none) :
    (process H req1 s).1.status = 201 ∧
    process H req2 (process H req1 s).2 =
      ({ status := 409, error := some "Utilisateur déjà existant" },
       (process H req1 s).2) := by
  have habs1 : alGet ((req1.body.username).getD "") s.users = none := by
    rw [hb1]
    exact habs
  have e1 : process H req1 s = registerHandler H req1 s :=
    process_register_eq H req1 s hm1 hp1 htok1 hv1
  have r1 := registerHandler_new H req1 s habs1
  constructor
  · rw [e1, r1]
  · have e2 : process H req2 (process H req1 s).2 =
        registerHandler H req2 (process H req1 s).2 :=
      process_register_eq H req2 (process H req1 s).2 hm2 hp2 htok2 hv2
    have hdup : alGet ((req2.body.username).getD "") (process H req1 s).2.users =
        some { id := s.nextId, username := (req1.body.username).getD "",
               passwordHash := H.hash ((req1.body.password).getD "") } := by
      rw [e1, r1, hb2]
      simp only
      rw [show ((Body.mk (some u) (some p2)).username).getD "" = u from rfl]
      rw [hb1]
      exact alGet_alSet_self u _ s.users
    have r2 := registerHandler_dup H req2 (process H req1 s).2 _ hdup
    rw [e2, r2]

/-- Witness for C6: registering `alice123` twice with two different
valid passwords — the second answer is 409 and the state after it is
the state after the first register. -/
theorem claim_C6_witness :
    (process demoHasher
       { method := "POST", path := "/api/auth/register", sid := "sid1",
         csrfToken := some (deriveToken "sec1"),
         body := { username := some "alice123", password := some "Passw0rd!" },
         ip := "ip1", now := 1000, entropy := "e1", dbHealthy := true }
       { users := [], nextId := 1, loginAttempts := [],
         sessions := [("sid1", freshSession "sec1")] }).1.status = 201 ∧
    process demoHasher
      { method := "POST", path := "/api/auth/register", sid := "sid1",
        csrfToken := some (deriveToken "sec1"),
        body := { username := some "alice123", password := some "Aa1@wxyz" },
        ip := "ip1", now := 2000, entropy := "e2", dbHealthy := true }
      (process demoHasher
         { method := "POST", path := "/api/auth/register", sid := "sid1",
           csrfToken := some (deriveToken "sec1"),
           body := { username := some "alice123", password := some "Passw0rd!" },
           ip := "ip1", now := 1000, entropy := "e1", dbHealthy := true }
         { users := [], nextId := 1, loginAttempts := [],
           sessions := [("sid1", freshSession "sec1")] }).2 =
      ({ status := 409, error := some "Utilisateur déjà existant" },
       (process demoHasher
          { method := "POST", path := "/api/auth/register", sid := "sid1",
            csrfToken := some (deriveToken "sec1"),
            body := { username := some "alice123", password := some "Passw0rd!" },
            ip := "ip1", now := 1000, entropy := "e1", dbHealthy := true }
          { users := [], nextId := 1, loginAttempts := [],
            sessions := [("sid1", freshSession "sec1")] }).2) :=
  claim_C6 demoHasher
    { users := [], nextId := 1, loginAttempts := [],
      sessions := [("sid1", freshSession "sec1")] }
    { method := "POST", path := "/api/auth/register", sid := "sid1",
      csrfToken := some (deriveToken "sec1"),
      body := { username := some "alice123", password := some "Passw0rd!" },
      ip := "ip1", now := 1000, entropy := "e1", dbHealthy := true }
    { method := "POST", path := "/api/auth/register", sid := "sid1",
      csrfToken := some (deriveToken "sec1"),
      body := { username := some "alice123", password := some "Aa1@wxyz" },
      ip := "ip1", now := 2000, entropy := "e2", dbHealthy := true }
    "alice123" "Passw0rd!" "Aa1@wxyz"
    rfl rfl rfl rfl rfl rfl (by decide) (by decide) (by decide) (by decide)
    (by decide)

/-- Counterexample to C7 as stated: a session authenticated as user id 1
whose user row has been deleted from the store — the Prisma profile
handler answers 404, not the 401 the claim asserts. -/
theorem claim_C7_cex :
    profileHandlerDb [] "sid1"
      [("sid1", { userId := .num 1, username := .str "alice123",
                  csrfSecret := "sec1" })] =
      { status := 404, error := some "Utilisateur non trouvé" } ∧
    ({ status := 404, error := some "Utilisateur non trouvé" } : Response).status
      ≠ 401 := by
  decide

/-- C7 as amended by the counterexample: for an authenticated session,
a successful profile read answers 200 with the public view carrying
`id`, `username`, `createdAt`, `updatedAt`; if the referenced user has
vanished from the store, the handler answers 404 `Utilisateur non
trouvé` (not 401). -/
theorem claim_C7 (db : List DbUser) (sid : String)
    (sessions : List (String × SessionData)) (sd : SessionData) (n : Int)
    (hsess : alGet sid sessions = some sd)
    (hid : sd.userId = .num n) (hn : n ≠ 0) :
    (∀ u, dbFindById db sd.userId = some u →
      profileHandlerDb db sid sessions =
        { status := 200, message := some "Profil protégé",
          user := some [("id", toString u.id), ("username", u.username),
                        ("createdAt", u.createdAt), ("updatedAt", u.updatedAt)] }) ∧
    (dbFindById db sd.userId = none →
      profileHandlerDb db sid sessions =
        { status := 404, error := some "Utilisateur non trouvé" }) := by
  have hgrant : requireAuth (some sd) = .granted sd.userId := by
    simp only [requireAuth, hid]
    simp [JSValue.truthy, JSValue.isNumOrStr, hn]
  constructor
  · intro u hu
    unfold profileHandlerDb
    rw [hsess, hgrant]
    simp [hu]
  · intro hnone
    unfold profileHandlerDb
    rw [hsess, hgrant]
    simp [hnone]

/-- Witness for the amended C7: with user id 1 stored, profile answers
200 with the four public fields; with the store emptied, it answers
404. -/
theorem claim_C7_witness :
    profileHandlerDb
      [{ id := 1, username := "alice123", passwordHash := "h1",
         createdAt := "2025-01-01", updatedAt := "2025-01-02" }]
      "sid1"
      [("sid1", { userId := .num 1, username := .str "alice123",
                  csrfSecret := "sec1" })] =
      { status := 200, message := some "Profil protégé",
        user := some [("id", "1"), ("username", "alice123"),
                      ("createdAt", "2025-01-01"), ("updatedAt", "2025-01-02")] } ∧
    profileHandlerDb [] "sid1"
      [("sid1", { userId := .num 1, username := .str "alice123",
                  csrfSecret := "sec1" })] =
      { status := 404, error := some "Utilisateur non trouvé" } :=
  ⟨(claim_C7
      [{ id := 1, username := "alice123", passwordHash := "h1",
         createdAt := "2025-01-01", updatedAt := "2025-01-02" }]
      "sid1"
      [("sid1", { userId := .num 1, username := .str "alice123",
                  csrfSecret := "sec1" })]
      { userId := .num 1, username := .str "alice123", csrfSecret := "sec1" }
      1 (by decide) rfl (by decide)).1
      { id := 1, username := "alice123", passwordHash := "h1",
        createdAt := "2025-01-01", updatedAt := "2025-01-02" }
      (by decide),
   (claim_C7 [] "sid1"
      [("sid1", { userId := .num 1, username := .str "alice123",
                  csrfSecret := "sec1" })]
      { userId := .num 1, username := .str "alice123", csrfSecret := "sec1" }
      1 (by decide) rfl (by decide)).2 (by decide)⟩

/-- Counterexample to C8 as stated: the password `#Aa1@xyzw` satisfies
all five documented strength rules (length 9, has upper, lower, digit,
and a symbol from `@$!%*?&`), yet the Joi pattern rejects it because its
FIRST character `#` is outside `[A-Za-z\d@$!%*?&]`; a register request
carrying it is answered 400 and creates no user. -/
theorem claim_C8_cex :
    specPasswordRules "#Aa1@xyzw" = true ∧
    passwordValid "#Aa1@xyzw" = false ∧
    process demoHasher
      { method := "POST", path := "/api/auth/register", sid := "sid1",
        csrfToken := some (deriveToken "sec1"),
        body := { username := some "alice123", password := some "#Aa1@xyzw" },
        ip := "ip1", now := 1000, entropy := "e1", dbHealthy := true }
      { users := [], nextId := 1, loginAttempts := [],
        sessions := [("sid1", freshSession "sec1")] } =
      ({ status := 400, error := some validationMessage },
       { users := [], nextId := 1, loginAttempts := [],
         sessions := [("sid1", freshSession "sec1")] }) := by
  decide

/-- C8 as amended by the counterexample: for passwords free of regex
line terminators, the code accepts exactly those satisfying the five
documented rules AND whose first character lies in the pattern class
`[A-Za-z\d@$!%*?&]`; and any register request failing validation is
answered 400 with the state unchanged, so no user is created. -/
theorem claim_C8 :
    (∀ p : String, p.data.all (fun c => !lineTerm c) = true →
      passwordValid p = (specPasswordRules p && headInPasswordClass p)) ∧
    (∀ (H : Hasher) (req : Request) (s : AppState),
      req.method = "POST" → req.path = "/api/auth/register" →
      csrfTokenOk req s = true → registerBodyValid req.body = false →
      process H req s = ({ status := 400, error := some validationMessage }, s)) := by
  constructor
  · intro p hall
    unfold passwordValid passwordPatternTest specPasswordRules headInPasswordClass
    rw [takeWhile_of_all hall]
    simp [Bool.and_assoc]
  · intro H req s hm hp htok hbad
    unfold process
    rw [show csrfExemptMethod req.method = false from by rw [hm]; rfl]
    simp only [Bool.false_eq_true, if_false, htok, if_true]
    unfold route
    rw [hm, hp]
    simp [hbad]

/-- Witness for the amended C8: the accepted `Passw0rd!` is exactly
five-rules-plus-class-head, and a concrete register with the too-short
`Aa1@xyz` is answered 400 with nothing stored. -/
theorem claim_C8_witness :
    passwordValid "Passw0rd!" =
      (specPasswordRules "Passw0rd!" && headInPasswordClass "Passw0rd!") ∧
    process demoHasher
      { method := "POST", path := "/api/auth/register", sid := "sid1",
        csrfToken := some (deriveToken "sec1"),
        body := { username := some "alice123", password := some "Aa1@xyz" },
        ip := "ip1", now := 1000, entropy := "e1", dbHealthy := true }
      { users := [], nextId := 1, loginAttempts := [],
        sessions := [("sid1", freshSession "sec1")] } =
      ({ status := 400, error := some validationMessage },
       { users := [], nextId := 1, loginAttempts := [],
         sessions := [("sid1", freshSession "sec1")] }) :=
  ⟨claim_C8.1 "Passw0rd!" (by decide),
   claim_C8.2 demoHasher
     { method := "POST", path := "/api/auth/register", sid := "sid1",
       csrfToken := some (deriveToken "sec1"),
       body := { username := some "alice123", password := some "Aa1@xyz" },
       ip := "ip1", now := 1000, entropy := "e1", dbHealthy := true }
     { users := [], nextId := 1, loginAttempts := [],
       sessions := [("sid1", freshSession "sec1")] }
     rfl rfl (by decide) (by decide)⟩

/-- C9 (round-trip): for any execution trace register(u, p) → logout →
token refresh → login(u, p) — each mutating step presenting a valid
anti-forgery token, the username fresh at the start, and no lockout at
the login — the register answers 201, the logout 200, the final login
200, and the `id` field of the login's user object equals the one the
register returned (namely the id assigned at registration). -/
theorem claim_C9 (H : Hasher) (s : AppState) (u p : String)
    (req1 req2 req3 req4 : Request)
    (r1 r2 r3 r4 : Response) (s1 s2 s3 s4 : AppState)
    (hm1 : req1.method = "POST") (hp1 : req1.path = "/api/auth/register")
    (hb1 : req1.body = { username := some u, password := some p })
    (htok1 : csrfTokenOk req1 s = true)
    (hval : registerBodyValid req1.body = true)
    (habs : alGet u s.users = none)
    (hnid : s.nextId ≠ 0)
    (hE1 : process H req1 s = (r1, s1))
    (hm2 : req2.method = "POST") (hp2 : req2.path = "/api/auth/logout")
    (hs2 : req2.sid = req1.sid)
    (htok2 : csrfTokenOk req2 s1 = true)
    (hE2 : process H req2 s1 = (r2, s2))
    (hm3 : req3.method = "GET") (hp3 : req3.path = "/api/auth/csrf-token")
    (hs3 : req3.sid = req2.sid)
    (hE3 : process H req3 s2 = (r3, s3))
    (hm4 : req4.method = "POST") (hp4 : req4.path = "/api/auth/login")
    (hb4 : req4.body = req1.body)
    (htok4 : csrfTokenOk req4 s3 = true)
    (hverify : H.verify p (H.hash p) = true)
    (hopen : (checkLoginAttempts req4.now req4.ip s3.loginAttempts).1 = true)
    (hE4 : process H req4 s3 = (r4, s4)) :
    r1.status = 201 ∧ r2.status = 200 ∧ r4.status = 200 ∧
    alGet "id" (r4.user.getD []) = alGet "id" (r1.user.getD []) ∧
    alGet "id" (r1.user.getD []) = some (toString s.nextId) := by
  have hnid' : ((s.nextId : Int)) ≠ 0 := Int.natCast_ne_zero.mpr hnid
  -- step 1: register
  have habs1 : alGet ((req1.body.username).getD "") s.users = none := by
    rw [hb1]
    exact habs
  rw [process_register_eq H req1 s hm1 hp1 htok1 hval,
      registerHandler_new H req1 s habs1, hb1] at hE1
  rw [Prod.mk.injEq] at hE1
  obtain ⟨hr1, hs1e⟩ := hE1
  subst hs1e
  subst hr1
  -- step 2: logout
  rw [process_logout_eq H req2 _ hm2 hp2 htok2] at hE2
  unfold logoutHandler withAuth at hE2
  rw [hs2] at hE2
  simp only [alGet_alSet_self, requireAuth, JSValue.truthy, JSValue.isNumOrStr,
    Bool.not_true, Bool.or_false, bne_iff_ne, ne_eq, hnid', not_false_eq_true,
    not_true_eq_false, Bool.not_eq_true, if_false] at hE2
  rw [if_neg (by simp [hnid'])] at hE2
  rw [Prod.mk.injEq] at hE2
  obtain ⟨hr2, hs2e⟩ := hE2
  subst hs2e
  subst hr2
  -- step 3: csrf token refresh recreates the session
  rw [process_csrfToken_eq H req3 _ hm3 hp3] at hE3
  unfold csrfTokenHandler at hE3
  rw [hs3, hs2] at hE3
  simp only [alGet_alErase_self] at hE3
  rw [Prod.mk.injEq] at hE3
  obtain ⟨hr3, hs3e⟩ := hE3
  subst hs3e
  subst hr3
  -- step 4: login with the same credentials
  have hval' : (usernameValid u && passwordValid p) = true := by
    rw [hb1] at hval
    exact hval
  rw [Bool.and_eq_true] at hval'
  have hu0 : (u != "") = true := by
    rcases eq_or_ne u "" with h | h
    · rw [h] at hval'
      exact absurd hval'.1 (by decide)
    · simp [h]
  have hpw0 : (p != "") = true := by
    rcases eq_or_ne p "" with h | h
    · rw [h] at hval'
      exact absurd hval'.2 (by decide)
    · simp [h]
  have hbody4 : loginBodyValid req4.body = true := by
    rw [hb4, hb1]
    simp [loginBodyValid, hu0, hpw0]
  rw [process_login_eq H req4 _ hm4 hp4 htok4 hbody4] at hE4
  unfold loginHandler at hE4
  rw [hb4, hb1] at hE4
  simp only [hopen, Bool.not_true, Bool.false_eq_true, if_false,
    Option.getD_some, alGet_alSet_self, hverify, reduceIte] at hE4
  rw [Prod.mk.injEq] at hE4
  obtain ⟨hr4, hs4e⟩ := hE4
  subst hs4e
  subst hr4
  refine ⟨rfl, rfl, rfl, ?_, ?_⟩ <;> simp [alGet]

/-- Witness for C9: the concrete trace register → logout → token
refresh → login on `alice123` / `Passw0rd!` from the empty store: 201,
200, 200, and the login returns the id the register assigned (1). -/
theorem claim_C9_witness :
    (process demoHasher rtRegisterReq rtState).1.status = 201 ∧
    (process demoHasher rtLogoutReq
       (process demoHasher rtRegisterReq rtState).2).1.status = 200 ∧
    (process demoHasher rtLoginReq
       (process demoHasher rtTokenReq
          (process demoHasher rtLogoutReq
             (process demoHasher rtRegisterReq rtState).2).2).2).1.status = 200 ∧
    alGet "id"
      (((process demoHasher rtLoginReq
          (process demoHasher rtTokenReq
             (process demoHasher rtLogoutReq
                (process demoHasher rtRegisterReq rtState).2).2).2).1.user).getD []) =
      alGet "id" (((process demoHasher rtRegisterReq rtState).1.user).getD []) ∧
    alGet "id" (((process demoHasher rtRegisterReq rtState).1.user).getD []) =
      some (toString rtState.nextId) :=
  claim_C9 demoHasher rtState "alice123" "Passw0rd!"
    rtRegisterReq rtLogoutReq rtTokenReq rtLoginReq
    _ _ _ _ _ _ _ _
    rfl rfl rfl (by decide) (by decide) (by decide) (by decide) rfl
    rfl rfl rfl (by decide) rfl
    rfl rfl rfl rfl
    rfl rfl rfl (by decide) (by decide) (by decide) rfl

/-- C5: every user object any pipeline response carries (register,
login, profile — and every other route) holds only public fields
(`id`, `username`, `createdAt`, `updatedAt`, never `passwordHash`), and
every string in a serialized body is drawn from the public, non-hash
data of the request and state; hence a stored `passwordHash` that is
distinct from those public strings never appears in any response body.
The same holds for the Prisma profile handler. -/
theorem claim_C5 :
    (∀ (H : Hasher) (req : Request) (s : AppState),
      (∀ k ∈ userKeys (process H req s).1, k ∈ publicUserKeys) ∧
      (∀ x ∈ bodyStrings (process H req s).1, isPublicString req s x) ∧
      (∀ (k : String) (u : User), alGet k s.users = some u →
        ¬ isPublicString req s u.passwordHash →
        u.passwordHash ∉ bodyStrings (process H req s).1)) ∧
    (∀ (db : List DbUser) (sid : String)
        (sessions : List (String × SessionData)),
      (∀ k ∈ userKeys (profileHandlerDb db sid sessions), k ∈ publicUserKeys) ∧
      (∀ x ∈ bodyStrings (profileHandlerDb db sid sessions),
        isPublicStringDb db x) ∧
      (∀ u ∈ db, ¬ isPublicStringDb db (u : DbUser).passwordHash →
        (u : DbUser).passwordHash ∉
          bodyStrings (profileHandlerDb db sid sessions))) := by
  constructor
  · intro H req s
    refine ⟨(c5_process H req s).1, (c5_process H req s).2, ?_⟩
    intro k u _ hnp hmem
    exact hnp ((c5_process H req s).2 _ hmem)
  · intro db sid sessions
    refine ⟨(c5_profileDb db sid sessions).1, (c5_profileDb db sid sessions).2, ?_⟩
    intro u _ hnp hmem
    exact hnp ((c5_profileDb db sid sessions).2 _ hmem)

/-- Witness for C5: on the concrete one-user state, a successful login
response has only public user keys, and the stored bcrypt hash appears
in no body string; likewise for a concrete Prisma profile read. -/
theorem claim_C5_witness :
    (∀ k ∈ userKeys
        (process demoHasher lockedLoginReq
          { lockedState with loginAttempts := [] }).1, k ∈ publicUserKeys) ∧
    "bcrypt-Passw0rd!" ∉ bodyStrings
      (process demoHasher lockedLoginReq
        { lockedState with loginAttempts := [] }).1 ∧
    "h1" ∉ bodyStrings
      (profileHandlerDb
        [{ id := 1, username := "alice123", passwordHash := "h1",
           createdAt := "2025-01-01", updatedAt := "2025-01-02" }]
        "sid1"
        [("sid1", { userId := .num 1, username := .str "alice123",
                    csrfSecret := "sec1" })]) :=
  ⟨(claim_C5.1 demoHasher lockedLoginReq
      { lockedState with loginAttempts := [] }).1,
   (claim_C5.1 demoHasher lockedLoginReq
      { lockedState with loginAttempts := [] }).2.2 "alice123"
      { id := 1, username := "alice123", passwordHash := "bcrypt-Passw0rd!" }
      (by decide) (by decide),
   (claim_C5.2
      [{ id := 1, username := "alice123", passwordHash := "h1",
         createdAt := "2025-01-01", updatedAt := "2025-01-02" }]
      "sid1"
      [("sid1", { userId := .num 1, username := .str "alice123",
                  csrfSecret := "sec1" })]).2.2
      { id := 1, username := "alice123", passwordHash := "h1",
        createdAt := "2025-01-01", updatedAt := "2025-01-02" }
      (by decide) (by decide)⟩

/-- C10: `requireAuth` admits a request exactly when the session exists
and `session.userId` is a truthy number or string, copying it unchanged
onto the request; a `userId` of `0` or `""` is rejected with the same
401 response as an absent `userId`. -/
theorem claim_C10 :
    (∀ (sess : Option SessionData) (v : JSValue),
      requireAuth sess = .granted v ↔
        ∃ sd, sess = some sd ∧ v = sd.userId ∧
          sd.userId.truthy = true ∧ sd.userId.isNumOrStr = true) ∧
    (∀ (u : JSValue) (cs : String),
      requireAuth (some { userId := .num 0, username := u, csrfSecret := cs }) =
        .reject "Non autorisé" ∧
      requireAuth (some { userId := .str "", username := u, csrfSecret := cs }) =
        .reject "Non autorisé" ∧
      requireAuth (some { userId := .undefined, username := u, csrfSecret := cs }) =
        .reject "Non autorisé") := by
  constructor
  · intro sess v
    cases sess with
    | none => simp [requireAuth]
    | some sd =>
        have hiff : requireAuth (some sd) = .granted v ↔
            (v = sd.userId ∧ sd.userId.truthy = true ∧
              sd.userId.isNumOrStr = true) := by
          unfold requireAuth
          by_cases h1 : sd.userId.truthy
          · by_cases h2 : sd.userId.isNumOrStr
            · simp only [h1, h2, Bool.not_true, Bool.or_self,
                Bool.false_eq_true, if_false, AuthGate.granted.injEq, and_true]
              exact comm
            · simp [h1, h2]
          · simp [h1]
        rw [hiff]
        constructor
        · rintro ⟨hv, h1, h2⟩
          exact ⟨sd, rfl, hv, h1, h2⟩
        · rintro ⟨sd', hsd', hv, h1, h2⟩
          rw [Option.some_inj] at hsd'
          subst hsd'
          exact ⟨hv, h1, h2⟩
  · intro u cs
    refine ⟨rfl, rfl, rfl⟩

/-- Witness for C10: a session with `userId = 7` is admitted with
`req.userId = 7`, while `userId = 0` is rejected exactly like a missing
one. -/
theorem claim_C10_witness :
    requireAuth (some { userId := .num 7, username := .undefined, csrfSecret := "cs" }) =
      .granted (.num 7) ∧
    requireAuth (some { userId := .num 0, username := .undefined, csrfSecret := "cs" }) =
      .reject "Non autorisé" ∧
    requireAuth none = .reject "Session non disponible" :=
  ⟨(claim_C10.1 (some { userId := .num 7, username := .undefined, csrfSecret := "cs" })
      (.num 7)).mpr ⟨_, rfl, rfl, rfl, rfl⟩,
   (claim_C10.2 .undefined "cs").1, rfl⟩

end Theorems

end SecureApi
